import Mathlib

/-!
# A shallow embedding of gordon's message router (`gordon/router.py`)

The embedding translates `GordonRouter` and the data it manipulates into
executable Lean definitions:

* `EventMessage` mirrors the `IEventMessage` contract (`msg_id`, `phase`,
  `history`); `update_phase` only rewrites the phase and
  `append_to_history` only appends, exactly as the interface and the test
  stub (`tests/unit/test_router.py:EventMsgStub`) specify.
* Message handlers (`IMessageHandler.handle_message`) are modelled as
  functions `EventMessage → HandlerResult`: a handler either returns the
  (possibly mutated) message or raises an exception, identified by its
  class name, which is how `_route`'s `except` block tags the dropped
  metric.
* The metric relay (`IMetricRelay`) is modelled as an append-only event
  log inside the router state: `incr`/`set` calls and the per-message
  flight timer's `start`/`stop` become `MetricEvent`s in emission order.
* Python exceptions that escape a method (`AttributeError` from
  `None.handle_message` or from a message without `msg_id`, `KeyError`
  from `dict.pop`) are modelled with `Option String` error outputs; the
  unbounded recursion of `_route` is modelled with explicit fuel, with
  `none` meaning the recursion did not finish within the given fuel.
-/

namespace Gordon

/-- The `IEventMessage` data: identifier, mutable phase and the append-only
history log of `(entry, plugin_phase)` pairs. -/
structure EventMessage where
  msg_id : String
  phase : String
  history : List (String × String)
deriving DecidableEq

/-- `IEventMessage.update_phase`: rewrite the phase field only. -/
def update_phase (m : EventMessage) (new_phase : String) : EventMessage :=
  { m with phase := new_phase }

/-- `IEventMessage.append_to_history`: append one `(entry, plugin_phase)`
pair to the history log. -/
def append_to_history (m : EventMessage) (entry : String) (plugin_phase : String) :
    EventMessage :=
  { m with history := m.history ++ [(entry, plugin_phase)] }

/-- Outcome of one `handle_message` call: normal return of the (possibly
mutated) message, or an exception identified by its class name. -/
inductive HandlerResult where
  | ok (msg : EventMessage)
  | exc (excName : String)

/-- A message-handler plugin's `handle_message` behaviour. -/
abbrev Handler := EventMessage → HandlerResult

/-- Levels of the `logging` calls the router makes. -/
inductive LogLevel where
  | debug
  | info
  | warning
  | error
deriving DecidableEq

/-- One observable metric-relay event, in emission order.  Timer events
carry the message id that keys the timer in `_messages_in_flight` (the
timer metric name is always `router-message-flight-duration`). -/
inductive MetricEvent where
  | incr (name : String) (context : List (String × String))
  | set (name : String) (value : Nat)
  | timerStart (msgId : String)
  | timerStop (msgId : String)
deriving DecidableEq

/-- An object dequeued from the success channel: the `None` shutdown
sentinel, a proper `IEventMessage` provider, or an object that does not
provide `IEventMessage` (which may or may not expose a `msg_id`
attribute — `_verify_message_impl` reads `event_msg.msg_id` while
formatting its log line). -/
inductive ChannelItem where
  | sentinel
  | msg (m : EventMessage)
  | invalid (hasMsgId : Bool) (msgId : String)
deriving DecidableEq

/-- `GordonRouter.FINAL_PHASES`. -/
def FINAL_PHASES : List String := ["cleanup"]

/-- The full router state: the constructor-time configuration
(`phase_route`, `phase_plugin_map`), the success channel (FIFO, head is
dequeued next), the in-flight table (ids with a started timer, in
insertion order), and the observable outputs (metric events, log lines,
`handle_message` invocations as `(phase, msg_id)` pairs). -/
structure RouterState where
  phase_route : List (String × String)
  phase_plugin_map : List (String × Handler)
  success_channel : List ChannelItem
  error_channel : List ChannelItem
  messages_in_flight : List String
  metrics : List MetricEvent
  logs : List (LogLevel × String)
  calls : List (String × String)

/-- Python `dict` lookup on an association list. -/
def plookup {β : Type} : List (String × β) → String → Option β
  | [], _ => none
  | kv :: rest, key => if kv.1 = key then some kv.2 else plookup rest key

/-- Python `dict` insertion (overwriting an existing key, as the dict
comprehension `{p.phase: p for p in plugins}` does on duplicates). -/
def dictSet {β : Type} : List (String × β) → String → β → List (String × β)
  | [], key, v => [(key, v)]
  | kv :: rest, key, v =>
    if kv.1 = key then (key, v) :: rest else kv :: dictSet rest key v

/-- `{p.phase: p for p in plugins}`: build the phase → plugin map,
last-registered plugin winning on duplicate phases. -/
def buildPhaseMap (plugins : List (String × Handler)) : List (String × Handler) :=
  plugins.foldl (fun acc p => dictSet acc p.1 p.2) []

def routingText : String := "Routing message to next phase."
def unknownPhaseText : String := "Message has an unknown phase, routing to cleanup."
def noFinalWarnText : String :=
  "No plugin implements a final phase, defaulting to drop messages."
def dropFinalText : String := "Dropping message, final phase not implemented."
def successHistoryText : String := "Adding message to success channel."
def excHistoryText : String := "Routing message to cleanup due to exception."
def excLogText : String := "Routing message to cleanup due to exception."
def termText : String := "Received TERM signal, shutting down router."
def invalidMsgText : String := "Ignoring message. Does not correctly implement IEventMessage."
def consumedName : String := "router-message-consumed"
def droppedName : String := "router-message-dropped"
def completedName : String := "router-message-completed"
def updatePhaseName : String := "router-update-message-phase"
def inFlightName : String := "router-messages-in-flight"

/-- Append a log line. -/
def addLog (s : RouterState) (lvl : LogLevel) (txt : String) : RouterState :=
  { s with logs := s.logs ++ [(lvl, txt)] }

/-- Append a metric event. -/
def addMetric (s : RouterState) (ev : MetricEvent) : RouterState :=
  { s with metrics := s.metrics ++ [ev] }

/-- Record one `handle_message` invocation. -/
def addCall (s : RouterState) (phase : String) (msgId : String) : RouterState :=
  { s with calls := s.calls ++ [(phase, msgId)] }

/-- `success_channel.put`. -/
def putMsg (s : RouterState) (item : ChannelItem) : RouterState :=
  { s with success_channel := s.success_channel ++ [item] }

/-- `GordonRouter.__init__` plus `_get_phase_plugin_map`: build the
phase → plugin map and log the warning when no plugin implements a final
phase (`not set(FINAL_PHASES) & set(phase_map)`). -/
def mkRouter (phase_route : List (String × String))
    (success_channel error_channel : List ChannelItem)
    (plugins : List (String × Handler)) : RouterState :=
  { phase_route := phase_route
    phase_plugin_map := buildPhaseMap plugins
    success_channel := success_channel
    error_channel := error_channel
    messages_in_flight := []
    metrics := []
    logs :=
      if FINAL_PHASES.all (fun f => (plookup (buildPhaseMap plugins) f).isNone) then
        [(LogLevel.warning, noFinalWarnText)]
      else []
    calls := [] }

/-- `GordonRouter._get_next_phase`: look the current phase up in
`phase_route`; on success return it with a debug log, on `KeyError` log
at error level and fall back to `"cleanup"`. -/
def _get_next_phase (s : RouterState) (m : EventMessage) :
    String × (LogLevel × String) :=
  match plookup s.phase_route m.phase with
  | some next_phase => (next_phase, (LogLevel.debug, routingText))
  | none => ("cleanup", (LogLevel.error, unknownPhaseText))

/-- `GordonRouter._update_messages_in_flight`: report the size of the
in-flight table as the `router-messages-in-flight` gauge. -/
def _update_messages_in_flight (s : RouterState) : RouterState :=
  addMetric s (MetricEvent.set inFlightName s.messages_in_flight.length)

/-- `GordonRouter._add_message_in_flight`: on first sight of a message id
start a flight timer and insert the id; a duplicate id is left untouched.
Either way the gauge is re-reported afterwards. -/
def _add_message_in_flight (s : RouterState) (m : EventMessage) : RouterState :=
  _update_messages_in_flight
    (if m.msg_id ∈ s.messages_in_flight then s
     else
       addMetric { s with messages_in_flight := s.messages_in_flight ++ [m.msg_id] }
         (MetricEvent.timerStart m.msg_id))

/-- `GordonRouter._remove_message_in_flight`: when the message's phase is
final, `pop` the id (a missing id raises `KeyError`, reported as the
second component) and stop its timer; then re-report the gauge. -/
def _remove_message_in_flight (s : RouterState) (m : EventMessage) :
    RouterState × Option String :=
  if m.phase ∈ FINAL_PHASES then
    if m.msg_id ∈ s.messages_in_flight then
      (_update_messages_in_flight
        (addMetric { s with messages_in_flight := s.messages_in_flight.erase m.msg_id }
          (MetricEvent.timerStop m.msg_id)), none)
    else (s, some "KeyError")
  else (_update_messages_in_flight s, none)

/-- The body of `GordonRouter._route` once `next_phase` is determined:
emit the phase-transition counter, mutate the message's phase, resolve
the plugin, and dispatch.  A missing plugin at a final phase drops the
message; a missing plugin at a non-final phase raises `AttributeError`
(`None.handle_message`), which the `except` block catches like any
handler exception: append a history entry, log a warning, emit the
tagged dropped counter and recurse (`recurse` is `_route` with
`force_cleanup=True` and one unit of fuel less). -/
def routeCore (recurse : RouterState → EventMessage → Option (RouterState × EventMessage))
    (s : RouterState) (m : EventMessage) (next_phase : String) (force_cleanup : Bool) :
    Option (RouterState × EventMessage) :=
  let s1 := addMetric s
    (MetricEvent.incr updatePhaseName [("current", m.phase), ("next", next_phase)])
  let m1 := update_phase m next_phase
  match plookup s.phase_plugin_map next_phase with
  | none =>
    if next_phase ∈ FINAL_PHASES then
      some (addLog s1 LogLevel.debug dropFinalText, m1)
    else
      recurse
        (addMetric (addLog s1 LogLevel.warning excLogText)
          (MetricEvent.incr droppedName [("error", "AttributeError")]))
        (append_to_history m1 excHistoryText m1.phase)
  | some h =>
    let s2 := addCall s1 next_phase m1.msg_id
    match h m1 with
    | HandlerResult.ok m2 =>
      if next_phase ∈ FINAL_PHASES then
        if force_cleanup then some (s2, m2)
        else some (addMetric s2 (MetricEvent.incr completedName []), m2)
      else
        let m3 := append_to_history m2 successHistoryText m2.phase
        some (putMsg s2 (ChannelItem.msg m3), m3)
    | HandlerResult.exc e =>
      recurse
        (addMetric (addLog s2 LogLevel.warning excLogText)
          (MetricEvent.incr droppedName [("error", e)]))
        (append_to_history m1 excHistoryText m1.phase)

/-- `GordonRouter._route`, with explicit fuel bounding the
`force_cleanup=True` recursion (the source recursion has no bound; a
`none` result means it did not finish within `fuel` calls).
`force_cleanup` short-circuits `next_phase` to `"cleanup"`, otherwise
`_get_next_phase` decides it and its log line is emitted. -/
def _route : Nat → RouterState → EventMessage → Bool → Option (RouterState × EventMessage)
  | 0, _, _, _ => none
  | Nat.succ fuel, s, m, force_cleanup =>
    if force_cleanup then
      routeCore (fun s1 m1 => _route fuel s1 m1 true) s m "cleanup" true
    else
      routeCore (fun s1 m1 => _route fuel s1 m1 true)
        (addLog s (_get_next_phase s m).2.1 (_get_next_phase s m).2.2)
        m (_get_next_phase s m).1 false

/-- The `next_phase` a `_route` call dispatches to (step 1 of the
algorithm): the terminal phase when forced, else `_get_next_phase`. -/
def computedNextPhase (s : RouterState) (m : EventMessage) (force_cleanup : Bool) :
    String :=
  if force_cleanup then "cleanup" else (_get_next_phase s m).1

/-- `GordonRouter._verify_message_impl` on an already-dequeued non-`None`
item: a proper provider passes; a non-provider is logged and dropped
with the `invalid-message-provider` tagged metric — unless it lacks
`msg_id`, in which case formatting the log line raises
`AttributeError` before anything is emitted.  Returns the state, the
escaped exception if any, and whether the item passed. -/
def _verify_message_impl (s : RouterState) :
    ChannelItem → RouterState × Option String × Bool
  | ChannelItem.msg _ => (s, none, true)
  | ChannelItem.sentinel => (s, none, false)
  | ChannelItem.invalid hasMsgId _ =>
    if hasMsgId then
      (addMetric (addLog s LogLevel.warning invalidMsgText)
        (MetricEvent.incr droppedName [("error", "invalid-message-provider")]),
       none, false)
    else (s, some "AttributeError", false)

/-- `GordonRouter._poll_channel`: non-blocking read of the success
channel.  Empty channel: return at once.  `None`: log the shutdown
message and return.  Invalid object: verify (which may raise).  Valid
message: consumed counter, in-flight insert, `_route`, in-flight remove
(whose `pop` may raise `KeyError`).  The second component is the
exception escaping this poll coroutine, if any (`"OutOfFuel"` stands for
the unbounded `_route` recursion not finishing). -/
def _poll_channel (fuel : Nat) (s : RouterState) : RouterState × Option String :=
  match s.success_channel with
  | [] => (s, none)
  | item :: rest =>
    let s0 : RouterState := { s with success_channel := rest }
    match item with
    | ChannelItem.sentinel => (addLog s0 LogLevel.info termText, none)
    | ChannelItem.invalid hasMsgId mid =>
      let v := _verify_message_impl s0 (ChannelItem.invalid hasMsgId mid)
      (v.1, v.2.1)
    | ChannelItem.msg m =>
      let s1 := addMetric s0 (MetricEvent.incr consumedName [])
      let s2 := _add_message_in_flight s1 m
      match _route fuel s2 m false with
      | none => (s2, some "OutOfFuel")
      | some (s3, m3) => _remove_message_in_flight s3 m3

/-- `GordonRouter.run`, restricted to `n` scheduling iterations: `run`
loops forever, scheduling one `_poll_channel` per iteration (it never
breaks, not even after the shutdown sentinel).  Exceptions escaping a
poll coroutine are collected (in `run` they stay in the finished task;
the loop keeps going). -/
def runPolls (fuel : Nat) : Nat → RouterState → RouterState × List String
  | 0, s => (s, [])
  | Nat.succ n, s =>
    let p := _poll_channel fuel s
    let r := runPolls fuel n p.1
    (r.1, (match p.2 with | none => [] | some e => [e]) ++ r.2)

/-! ## Observation helpers over the metric event log -/

/-- The `error` tags of the `router-message-dropped` increments, in
emission order. -/
def droppedTags (ms : List MetricEvent) : List String :=
  ms.filterMap fun ev =>
    match ev with
    | MetricEvent.incr nm [(k, v)] =>
      if nm = droppedName ∧ k = "error" then some v else none
    | _ => none

/-- Whether a metric event is a `router-message-completed` increment. -/
def isCompleted : MetricEvent → Bool
  | MetricEvent.incr nm _ => nm == completedName
  | _ => false

/-- Number of `router-message-completed` increments. -/
def completedCount (ms : List MetricEvent) : Nat := ms.countP isCompleted

/-- Number of `router-message-dropped` increments. -/
def droppedCount (ms : List MetricEvent) : Nat := (droppedTags ms).length

/-- The `(current, next)` pairs of the `router-update-message-phase`
increments, in emission order: the phase transitions attempted. -/
def phaseTransitions (ms : List MetricEvent) : List (String × String) :=
  ms.filterMap fun ev =>
    match ev with
    | MetricEvent.incr nm [(k1, c), (k2, n)] =>
      if nm = updatePhaseName ∧ k1 = "current" ∧ k2 = "next" then some (c, n) else none
    | _ => none

/-- A handler that succeeds and mutates nothing but (possibly) the
history, which it only extends — the behaviour `IEventMessage`'s
append-only history contract prescribes for well-written plugins. -/
def WellBehaved (h : Handler) : Prop :=
  ∀ mm : EventMessage, ∃ mm2 ext, h mm = HandlerResult.ok mm2 ∧
    mm2.phase = mm.phase ∧ mm2.history = mm.history ++ ext

/-- The terminal-phase plugin, when registered, is well behaved (never
raises). -/
def CleanupSafe (s : RouterState) : Prop :=
  plookup s.phase_plugin_map "cleanup" = none ∨
  ∃ h, plookup s.phase_plugin_map "cleanup" = some h ∧ WellBehaved h

/-- `_route` never returns, whatever fuel it is given: the
`force_cleanup=True` recursion does not terminate. -/
def RouteDiverges (s : RouterState) (m : EventMessage) (force_cleanup : Bool) : Prop :=
  ∀ fuel : Nat, _route fuel s m force_cleanup = none

/-! ## Concrete instances: the spec's example scenarios -/

/-- A handler that succeeds without touching the message (the
`EnricherStub`/`PublisherStub` behaviour of the unit tests). -/
def noopHandler : Handler := fun m => HandlerResult.ok m

/-- The three-stage phase route of the spec's scenario 1 and of the test
fixture `loaded_config`. -/
def stdRoute : List (String × String) :=
  [("consume", "enrich"), ("enrich", "publish"), ("publish", "cleanup")]

/-- Succeeding plugins for the enrich, publish and cleanup phases. -/
def stdPlugins : List (String × Handler) :=
  [("enrich", noopHandler), ("publish", noopHandler), ("cleanup", noopHandler)]

/-- A message entering the pipeline at the `consume` phase. -/
def c1M : EventMessage := { msg_id := "m-c1", phase := "consume", history := [] }

/-- Router over the three-stage chain with all-succeeding handlers. -/
def c1S : RouterState := mkRouter stdRoute [] [] stdPlugins

/-- Fallback for `Option.getD` on route results (never reached in the
concrete runs below). -/
def dfltPair : RouterState × EventMessage := (mkRouter [] [] [] [], c1M)

/-- First `_route` dispatch of scenario 1 (`consume` → `enrich`). -/
def c1run1 : RouterState × EventMessage := (_route 9 c1S c1M false).getD dfltPair

/-- Second `_route` dispatch of scenario 1 (`enrich` → `publish`). -/
def c1run2 : RouterState × EventMessage := (_route 9 c1run1.1 c1run1.2 false).getD dfltPair

/-- Third `_route` dispatch of scenario 1 (`publish` → `cleanup`). -/
def c1run3 : RouterState × EventMessage := (_route 9 c1run2.1 c1run2.2 false).getD dfltPair

/-- A handler that always raises the given exception. -/
def alwaysRaise (e : String) : Handler := fun _ => HandlerResult.exc e

/-- A cleanup handler that raises `ValueError` on its first two
invocations of a message (history still short) and then succeeds. -/
def flakyCleanup : Handler := fun m =>
  if m.history.length ≤ 1 then HandlerResult.exc "ValueError" else HandlerResult.ok m

/-- Router whose enrich handler always raises and whose cleanup handler
itself raises once before succeeding. -/
def c2xS : RouterState := mkRouter stdRoute [] []
  [("enrich", alwaysRaise "ValueError"), ("cleanup", flakyCleanup)]

/-- The run of `_route` on `c2xS` from the `consume` phase. -/
def c2x : RouterState × EventMessage := (_route 9 c2xS c1M false).getD dfltPair

/-- A cleanup handler that raises `CleanupBoom` on its first two
invocations of a message and then succeeds. -/
def flaky2 : Handler := fun m =>
  if m.history.length ≤ 1 then HandlerResult.exc "CleanupBoom" else HandlerResult.ok m

/-- Router whose only plugin is the twice-raising cleanup handler. -/
def c6xS : RouterState := mkRouter stdRoute [] [] [("cleanup", flaky2)]

/-- A message at the `publish` phase, one hop from the terminal phase. -/
def c6xM : EventMessage := { msg_id := "m-c6", phase := "publish", history := [] }

/-- The run of `_route` on `c6xS` from the `publish` phase: a natural
terminal arrival whose cleanup handler raises twice. -/
def c6x : RouterState × EventMessage := (_route 9 c6xS c6xM false).getD dfltPair

/-- A one-hop route straight to the terminal phase. -/
def c7route : List (String × String) := [("consume", "cleanup")]

/-- Router whose success channel holds a message, then the `None`
shutdown sentinel, then a second message. -/
def c7S : RouterState := mkRouter c7route
  [ChannelItem.msg { msg_id := "m-1", phase := "consume", history := [] },
   ChannelItem.sentinel,
   ChannelItem.msg { msg_id := "m-2", phase := "consume", history := [] }] []
  [("cleanup", noopHandler)]

/-- A cleanup handler that raises on every invocation. -/
def alwaysRaiseCleanup : Handler := fun _ => HandlerResult.exc "CleanupError"

/-- Router whose cleanup handler raises on every invocation. -/
def c4xS : RouterState := mkRouter c7route [] [] [("cleanup", alwaysRaiseCleanup)]

/-- A message entering `c4xS` at the `consume` phase. -/
def c4xM : EventMessage := { msg_id := "m-c4", phase := "consume", history := [] }

/-- Router whose channel holds an object that neither provides
`IEventMessage` nor has a `msg_id` attribute. -/
def c9xS : RouterState := mkRouter stdRoute [ChannelItem.invalid false "x"] [] stdPlugins

/-- Router whose channel holds a non-provider object that does expose a
`msg_id` attribute. -/
def c9wS : RouterState := mkRouter stdRoute [ChannelItem.invalid true "x"] [] stdPlugins

/-- Router for the C2 witness: enrich raises, cleanup succeeds. -/
def c2wS : RouterState := mkRouter stdRoute [] []
  [("enrich", alwaysRaise "ValueError"), ("cleanup", noopHandler)]

/-- Router for the C10 witness: no enrich plugin, cleanup succeeds. -/
def c10wS : RouterState := mkRouter stdRoute [] [] [("cleanup", noopHandler)]

/-- A message with a phase absent from every route. -/
def bogusM : EventMessage := { msg_id := "m-bogus", phase := "its-not-a-phase", history := [] }

/-- Router with `m-c1` already tracked in flight. -/
def c5S : RouterState := { c1S with messages_in_flight := ["m-c1"] }

/-- The `m-c1` message at the terminal phase. -/
def c5M : EventMessage := { msg_id := "m-c1", phase := "cleanup", history := [] }

/-- Plugins with no final-phase handler. -/
def c8plugins : List (String × Handler) := [("enrich", noopHandler), ("publish", noopHandler)]

/-- Router built from `c8plugins`: nothing handles `cleanup`. -/
def c8wS : RouterState := mkRouter stdRoute [] [] c8plugins

/-- A message at the `publish` phase entering `c8wS`. -/
def c8wM : EventMessage := { msg_id := "m-c8", phase := "publish", history := [] }

/-- The C6 witness run: natural, succeeding terminal arrival on `c1S`. -/
def c6w : RouterState × EventMessage := (_route 2 c1S c6xM false).getD dfltPair

/-! ## Small projection and counting lemmas -/

@[simp] lemma update_phase_phase (m : EventMessage) (p : String) :
    (update_phase m p).phase = p := rfl

@[simp] lemma update_phase_history (m : EventMessage) (p : String) :
    (update_phase m p).history = m.history := rfl

@[simp] lemma update_phase_msg_id (m : EventMessage) (p : String) :
    (update_phase m p).msg_id = m.msg_id := rfl

@[simp] lemma append_to_history_phase (m : EventMessage) (e p : String) :
    (append_to_history m e p).phase = m.phase := rfl

@[simp] lemma append_to_history_history (m : EventMessage) (e p : String) :
    (append_to_history m e p).history = m.history ++ [(e, p)] := rfl

@[simp] lemma addLog_plugin_map (s : RouterState) (l : LogLevel) (t : String) :
    (addLog s l t).phase_plugin_map = s.phase_plugin_map := rfl

@[simp] lemma addMetric_plugin_map (s : RouterState) (ev : MetricEvent) :
    (addMetric s ev).phase_plugin_map = s.phase_plugin_map := rfl

@[simp] lemma addCall_plugin_map (s : RouterState) (p i : String) :
    (addCall s p i).phase_plugin_map = s.phase_plugin_map := rfl

@[simp] lemma putMsg_plugin_map (s : RouterState) (it : ChannelItem) :
    (putMsg s it).phase_plugin_map = s.phase_plugin_map := rfl

@[simp] lemma addLog_metrics (s : RouterState) (l : LogLevel) (t : String) :
    (addLog s l t).metrics = s.metrics := rfl

@[simp] lemma addCall_metrics (s : RouterState) (p i : String) :
    (addCall s p i).metrics = s.metrics := rfl

@[simp] lemma putMsg_metrics (s : RouterState) (it : ChannelItem) :
    (putMsg s it).metrics = s.metrics := rfl

@[simp] lemma addMetric_metrics (s : RouterState) (ev : MetricEvent) :
    (addMetric s ev).metrics = s.metrics ++ [ev] := rfl

@[simp] lemma addLog_channel (s : RouterState) (l : LogLevel) (t : String) :
    (addLog s l t).success_channel = s.success_channel := rfl

@[simp] lemma addMetric_channel (s : RouterState) (ev : MetricEvent) :
    (addMetric s ev).success_channel = s.success_channel := rfl

@[simp] lemma addCall_channel (s : RouterState) (p i : String) :
    (addCall s p i).success_channel = s.success_channel := rfl

@[simp] lemma putMsg_channel (s : RouterState) (it : ChannelItem) :
    (putMsg s it).success_channel = s.success_channel ++ [it] := rfl

@[simp] lemma addLog_calls (s : RouterState) (l : LogLevel) (t : String) :
    (addLog s l t).calls = s.calls := rfl

@[simp] lemma addMetric_calls (s : RouterState) (ev : MetricEvent) :
    (addMetric s ev).calls = s.calls := rfl

@[simp] lemma addLog_logs (s : RouterState) (l : LogLevel) (t : String) :
    (addLog s l t).logs = s.logs ++ [(l, t)] := rfl

@[simp] lemma addMetric_logs (s : RouterState) (ev : MetricEvent) :
    (addMetric s ev).logs = s.logs := rfl

@[simp] lemma addLog_route (s : RouterState) (l : LogLevel) (t : String) :
    (addLog s l t).phase_route = s.phase_route := rfl

@[simp] lemma addMetric_in_flight (s : RouterState) (ev : MetricEvent) :
    (addMetric s ev).messages_in_flight = s.messages_in_flight := rfl

@[simp] lemma addLog_in_flight (s : RouterState) (l : LogLevel) (t : String) :
    (addLog s l t).messages_in_flight = s.messages_in_flight := rfl

@[simp] lemma addCall_in_flight (s : RouterState) (p i : String) :
    (addCall s p i).messages_in_flight = s.messages_in_flight := rfl

@[simp] lemma droppedTags_append (a b : List MetricEvent) :
    droppedTags (a ++ b) = droppedTags a ++ droppedTags b := by
  simp [droppedTags, List.filterMap_append]

@[simp] lemma droppedTags_nil : droppedTags [] = [] := rfl

@[simp] lemma droppedTags_cons_update (c n : String) (ms : List MetricEvent) :
    droppedTags (MetricEvent.incr updatePhaseName [("current", c), ("next", n)] :: ms) =
      droppedTags ms := rfl

@[simp] lemma droppedTags_cons_empty_ctx (nm : String) (ms : List MetricEvent) :
    droppedTags (MetricEvent.incr nm [] :: ms) = droppedTags ms := rfl

@[simp] lemma droppedTags_cons_dropped (e : String) (ms : List MetricEvent) :
    droppedTags (MetricEvent.incr droppedName [("error", e)] :: ms) =
      e :: droppedTags ms := rfl

@[simp] lemma droppedTags_cons_invalid (ms : List MetricEvent) :
    droppedTags (MetricEvent.incr droppedName [("error", "invalid-message-provider")] :: ms) =
      "invalid-message-provider" :: droppedTags ms := rfl

@[simp] lemma droppedTags_cons_set (nm : String) (v : Nat) (ms : List MetricEvent) :
    droppedTags (MetricEvent.set nm v :: ms) = droppedTags ms := rfl

@[simp] lemma droppedTags_cons_timerStart (i : String) (ms : List MetricEvent) :
    droppedTags (MetricEvent.timerStart i :: ms) = droppedTags ms := rfl

@[simp] lemma droppedTags_cons_timerStop (i : String) (ms : List MetricEvent) :
    droppedTags (MetricEvent.timerStop i :: ms) = droppedTags ms := rfl

@[simp] lemma isCompleted_incr (nm : String) (ctx : List (String × String)) :
    isCompleted (MetricEvent.incr nm ctx) = (nm == completedName) := rfl

@[simp] lemma isCompleted_set (nm : String) (v : Nat) :
    isCompleted (MetricEvent.set nm v) = false := rfl

@[simp] lemma isCompleted_timerStart (i : String) :
    isCompleted (MetricEvent.timerStart i) = false := rfl

@[simp] lemma isCompleted_timerStop (i : String) :
    isCompleted (MetricEvent.timerStop i) = false := rfl

@[simp] lemma beq_update_completed : (updatePhaseName == completedName) = false := by decide

@[simp] lemma beq_dropped_completed : (droppedName == completedName) = false := by decide

@[simp] lemma beq_consumed_completed : (consumedName == completedName) = false := by decide

@[simp] lemma beq_completed_completed : (completedName == completedName) = true := by decide

@[simp] lemma completedCount_append (a b : List MetricEvent) :
    completedCount (a ++ b) = completedCount a + completedCount b := by
  simp [completedCount, List.countP_append]

@[simp] lemma completedCount_nil : completedCount [] = 0 := rfl

@[simp] lemma completedCount_cons (ev : MetricEvent) (ms : List MetricEvent) :
    completedCount (ev :: ms) = completedCount ms + if isCompleted ev then 1 else 0 := by
  simp [completedCount, List.countP_cons]

lemma cleanupSafe_congr (s1 s2 : RouterState)
    (h : s1.phase_plugin_map = s2.phase_plugin_map) (hs : CleanupSafe s2) :
    CleanupSafe s1 := by
  unfold CleanupSafe at hs ⊢
  rw [h]
  exact hs

lemma mem_final_iff (p : String) : p ∈ FINAL_PHASES ↔ p = "cleanup" := by
  simp [FINAL_PHASES]

/-- A forced-cleanup `_route` call under a well-behaved (or absent)
terminal handler terminates in one step: the message ends at the
terminal phase with its history only extended, and no dropped or
completed counter, no channel put and no plugin-map change happen. -/
theorem route_forced_safe (s : RouterState) (m : EventMessage) (n : Nat)
    (hs : CleanupSafe s) :
    (_route (n + 1) s m true).isSome = true ∧
    ∀ s2 m2, _route (n + 1) s m true = some (s2, m2) →
      m2.phase = "cleanup" ∧
      (∃ ext, m2.history = m.history ++ ext) ∧
      droppedTags s2.metrics = droppedTags s.metrics ∧
      completedCount s2.metrics = completedCount s.metrics ∧
      s2.success_channel = s.success_channel ∧
      s2.phase_plugin_map = s.phase_plugin_map := by
  rcases hs with hnone | ⟨h, hp, hw⟩
  · have hstep : _route (n + 1) s m true =
        some (addLog (addMetric s (MetricEvent.incr updatePhaseName
          [("current", m.phase), ("next", "cleanup")])) LogLevel.debug dropFinalText,
          update_phase m "cleanup") := by
      simp [_route, routeCore, hnone, FINAL_PHASES]
    refine ⟨by simp [hstep], ?_⟩
    intro s2 m2 hr
    rw [hstep] at hr
    cases hr
    refine ⟨rfl, ⟨[], by simp⟩, ?_, ?_, rfl, rfl⟩
    · simp [droppedTags_append]
    · simp [completedCount_append]
  · obtain ⟨mm2, ext, hok, hph, hh⟩ := hw (update_phase m "cleanup")
    have hstep : _route (n + 1) s m true =
        some (addCall (addMetric s (MetricEvent.incr updatePhaseName
          [("current", m.phase), ("next", "cleanup")])) "cleanup" m.msg_id, mm2) := by
      simp [_route, routeCore, hp, hok, FINAL_PHASES]
    refine ⟨by simp [hstep], ?_⟩
    intro s2 m2 hr
    rw [hstep] at hr
    cases hr
    refine ⟨by simp [hph], ⟨ext, by simpa using hh⟩, ?_, ?_, rfl, rfl⟩
    · simp [droppedTags_append]
    · simp [completedCount_append]

/-- One non-forced `_route` step whose handler raises: the `except`
block appends the history entry, logs, emits the tagged dropped counter
and recurses with `force_cleanup=True`. -/
theorem route_exc_step (n : Nat) (s : RouterState) (m : EventMessage) (p : String)
    (h : Handler) (e : String)
    (hl : plookup s.phase_route m.phase = some p)
    (hp : plookup s.phase_plugin_map p = some h)
    (hx : h (update_phase m p) = HandlerResult.exc e) :
    _route (n + 1) s m false =
    _route n
      (addMetric (addLog (addCall (addMetric (addLog s LogLevel.debug routingText)
          (MetricEvent.incr updatePhaseName [("current", m.phase), ("next", p)]))
          p m.msg_id) LogLevel.warning excLogText)
        (MetricEvent.incr droppedName [("error", e)]))
      (append_to_history (update_phase m p) excHistoryText p) true := by
  simp [_route, routeCore, _get_next_phase, hl, hp, hx]

/-- One non-forced `_route` step to a non-final phase that has no
registered plugin: `None.handle_message` raises `AttributeError`, which
the `except` block treats like any handler exception. -/
theorem route_missing_plugin_step (n : Nat) (s : RouterState) (m : EventMessage)
    (p : String)
    (hl : plookup s.phase_route m.phase = some p)
    (hp : plookup s.phase_plugin_map p = none)
    (hnf : p ∉ FINAL_PHASES) :
    _route (n + 1) s m false =
    _route n
      (addMetric (addLog (addMetric (addLog s LogLevel.debug routingText)
          (MetricEvent.incr updatePhaseName [("current", m.phase), ("next", p)]))
          LogLevel.warning excLogText)
        (MetricEvent.incr droppedName [("error", "AttributeError")]))
      (append_to_history (update_phase m p) excHistoryText p) true := by
  simp [_route, routeCore, _get_next_phase, hl, hp, hnf]

/-- One forced `_route` step whose cleanup handler raises: the `except`
block emits the tagged dropped counter and recurses, still forced. -/
theorem route_forced_exc_step (n : Nat) (s : RouterState) (m : EventMessage)
    (h : Handler) (e : String)
    (hp : plookup s.phase_plugin_map "cleanup" = some h)
    (hx : h (update_phase m "cleanup") = HandlerResult.exc e) :
    _route (n + 1) s m true =
    _route n
      (addMetric (addLog (addCall (addMetric s
          (MetricEvent.incr updatePhaseName [("current", m.phase), ("next", "cleanup")]))
          "cleanup" m.msg_id) LogLevel.warning excLogText)
        (MetricEvent.incr droppedName [("error", e)]))
      (append_to_history (update_phase m "cleanup") excHistoryText "cleanup") true := by
  simp [_route, routeCore, hp, hx]

/-- With a cleanup handler that raises on every call, forced `_route`
exhausts any amount of fuel: each level raises again and recurses. -/
theorem route_cleanup_always_raises :
    ∀ (n : Nat) (s : RouterState) (m : EventMessage),
      plookup s.phase_plugin_map "cleanup" = some alwaysRaiseCleanup →
      _route n s m true = none := by
  intro n
  induction n with
  | zero => intro s m _; rfl
  | succ k ih =>
    intro s m hp
    rw [route_forced_exc_step k s m alwaysRaiseCleanup "CleanupError" hp rfl]
    exact ih _ _ (by simpa using hp)

/-! ## The claims -/

/-- C1 (counterexample): on the three-stage chain with all-succeeding
handlers, the message's history after the three `_route` dispatches has
length 2, not 3 as claimed — `_route` appends a history entry only after
a successful non-final dispatch, and the final dispatch to `cleanup`
appends none. -/
theorem gordon_c1_counterexample :
    c1run3.2.history.length = 2 ∧ ¬ c1run3.2.history.length = 3 := by decide

/-- C1 (amended): on the three-stage chain `consume→enrich→publish→
cleanup` with all handlers succeeding, the successive `_route` dispatches
visit exactly enrich, publish, cleanup (once each, ending at the terminal
phase), the `router-message-completed` counter is incremented exactly
once, and the history length after reaching cleanup is 2. -/
theorem gordon_c1_amended :
    (phaseTransitions c1run3.1.metrics).map (fun t => t.2) =
      ["enrich", "publish", "cleanup"] ∧
    c1run3.2.phase = "cleanup" ∧
    "cleanup" ∈ FINAL_PHASES ∧
    completedCount c1run3.1.metrics = 1 ∧
    c1run3.2.history.length = 2 := by decide

/-- C2 (counterexample): with an enrich handler raising `ValueError` and
a cleanup handler that itself raises once before succeeding, a single
message's `_route` run emits the `ValueError`-tagged dropped counter
twice, not once as claimed. -/
theorem gordon_c2_counterexample :
    droppedTags c2x.1.metrics = ["ValueError", "ValueError"] ∧
    c2x.2.phase = "cleanup" := by decide

/-- C2 (amended): for every message whose handler at a non-terminal
phase raises, provided the terminal cleanup handler (when registered) is
well behaved, the exception is caught (`_route` returns normally), a
history entry documenting the exception is appended, the dropped counter
gains exactly one increment, tagged with the exception's class name, and
the message's final recorded phase is the terminal cleanup phase. -/
theorem gordon_c2_amended (s : RouterState) (m : EventMessage) (p : String)
    (h : Handler) (e : String) (n : Nat)
    (hl : plookup s.phase_route m.phase = some p)
    (hnf : p ∉ FINAL_PHASES)
    (hp : plookup s.phase_plugin_map p = some h)
    (hx : h (update_phase m p) = HandlerResult.exc e)
    (hs : CleanupSafe s) :
    (_route (n + 2) s m false).isSome = true ∧
    ∀ s2 m2, _route (n + 2) s m false = some (s2, m2) →
      m2.phase = "cleanup" ∧
      (excHistoryText, p) ∈ m2.history ∧
      droppedTags s2.metrics = droppedTags s.metrics ++ [e] ∧
      completedCount s2.metrics = completedCount s.metrics := by
  rw [route_exc_step (n + 1) s m p h e hl hp hx]
  have hsB : CleanupSafe (addMetric (addLog (addCall (addMetric
      (addLog s LogLevel.debug routingText)
      (MetricEvent.incr updatePhaseName [("current", m.phase), ("next", p)]))
      p m.msg_id) LogLevel.warning excLogText)
      (MetricEvent.incr droppedName [("error", e)])) :=
    cleanupSafe_congr _ s (by simp) hs
  obtain ⟨h1, h2⟩ := route_forced_safe _ _ n hsB
  refine ⟨h1, ?_⟩
  intro s2 m2 hr
  obtain ⟨hph, ⟨ext, hh⟩, hd, hc, -, -⟩ := h2 s2 m2 hr
  refine ⟨hph, ?_, ?_, ?_⟩
  · rw [hh]
    simp
  · rw [hd]
    simp [droppedTags_append]
  · rw [hc]
    simp [completedCount_append]

/-- C2 (witness): the amended claim applied to the concrete router whose
enrich handler raises `ValueError` and whose cleanup handler succeeds. -/
theorem gordon_c2_witness : (_route 5 c2wS c1M false).isSome = true :=
  (gordon_c2_amended c2wS c1M "enrich" (alwaysRaise "ValueError") "ValueError" 3
    rfl (by decide) rfl rfl
    (Or.inr ⟨noopHandler, rfl, fun mm => ⟨mm, [], rfl, rfl, by simp⟩⟩)).1

/-- C3: a message whose current phase is not a key of `phase_route` makes
`_get_next_phase` log at error level and return the terminal `cleanup`
phase, so the next `_route` dispatch routes the message to the terminal
phase (with the error logged, never silently dropped). -/
theorem gordon_c3 (s : RouterState) (m : EventMessage) (n : Nat)
    (hl : plookup s.phase_route m.phase = none) :
    _get_next_phase s m = ("cleanup", (LogLevel.error, unknownPhaseText)) ∧
    "cleanup" ∈ FINAL_PHASES ∧
    _route (n + 1) s m false =
      routeCore (fun s1 m1 => _route n s1 m1 true)
        (addLog s LogLevel.error unknownPhaseText) m "cleanup" false := by
  refine ⟨by simp [_get_next_phase, hl], by simp [FINAL_PHASES], ?_⟩
  simp [_route, _get_next_phase, hl]

/-- C3 (witness): the unknown-phase fallback on the concrete router. -/
theorem gordon_c3_witness :
    _get_next_phase c1S bogusM = ("cleanup", (LogLevel.error, unknownPhaseText)) :=
  (gordon_c3 c1S bogusM 0 rfl).1

/-- C4 (counterexample): with a cleanup-phase handler that raises on
every invocation, the `force_cleanup=True` recursion of `_route` never
terminates — each forced call raises again and recurses forced. -/
theorem gordon_c4_counterexample : RouteDiverges c4xS c4xM false := by
  intro fuel
  cases fuel with
  | zero => rfl
  | succ k =>
    rw [route_exc_step k c4xS c4xM "cleanup" alwaysRaiseCleanup "CleanupError"
      rfl rfl rfl]
    exact route_cleanup_always_raises k _ _ (by simp; rfl)

/-- A `routeCore` dispatch (`force_cleanup=False`) under a safe terminal
handler has a successor no matter what the addressed plugin does. -/
theorem routeCore_safe_isSome (s0 s : RouterState) (m : EventMessage) (np : String)
    (n : Nat)
    (hmap : s0.phase_plugin_map = s.phase_plugin_map)
    (hs : CleanupSafe s) :
    (routeCore (fun a b => _route (n + 1) a b true) s0 m np false).isSome = true := by
  cases hp : plookup s0.phase_plugin_map np with
  | none =>
    by_cases hf : np ∈ FINAL_PHASES
    · simp [routeCore, hp, hf]
    · have hstep : routeCore (fun a b => _route (n + 1) a b true) s0 m np false =
          _route (n + 1)
            (addMetric (addLog (addMetric s0 (MetricEvent.incr updatePhaseName
                [("current", m.phase), ("next", np)])) LogLevel.warning excLogText)
              (MetricEvent.incr droppedName [("error", "AttributeError")]))
            (append_to_history (update_phase m np) excHistoryText np) true := by
        simp [routeCore, hp, hf]
      rw [hstep]
      exact (route_forced_safe _ _ n (cleanupSafe_congr _ s (by simp [hmap]) hs)).1
  | some h =>
    by_cases hf : np ∈ FINAL_PHASES
    · have hnp := (mem_final_iff np).1 hf
      subst hnp
      rw [hmap] at hp
      rcases hs with hnone | ⟨h2, hp2, hw⟩
      · rw [hnone] at hp
        cases hp
      · rw [hp2] at hp
        have hh := Option.some.inj hp
        subst hh
        obtain ⟨mm2, ext, hok, hph2, hh2⟩ := hw (update_phase m "cleanup")
        simp [routeCore, hmap, hp2, hok, hf]
    · cases hx : h (update_phase m np) with
      | ok mm2 => simp [routeCore, hp, hf, hx]
      | exc e =>
        have hstep : routeCore (fun a b => _route (n + 1) a b true) s0 m np false =
            _route (n + 1)
              (addMetric (addLog (addCall (addMetric s0 (MetricEvent.incr updatePhaseName
                  [("current", m.phase), ("next", np)])) np m.msg_id)
                  LogLevel.warning excLogText)
                (MetricEvent.incr droppedName [("error", e)]))
              (append_to_history (update_phase m np) excHistoryText np) true := by
          simp [routeCore, hp, hf, hx]
        rw [hstep]
        exact (route_forced_safe _ _ n (cleanupSafe_congr _ s (by simp [hmap]) hs)).1

/-- C4 (amended): the `_route` recursion terminates for every phase
route, plugin map and handler behaviour, provided the cleanup-phase
handler, when registered, never raises (the counterexample shows a
cleanup handler that raises on every invocation makes it diverge). -/
theorem gordon_c4_amended (s : RouterState) (m : EventMessage) (fc : Bool) (n : Nat)
    (hs : CleanupSafe s) :
    (_route (n + 2) s m fc).isSome = true := by
  cases fc with
  | true => exact (route_forced_safe s m (n + 1) hs).1
  | false =>
    cases hl : plookup s.phase_route m.phase with
    | some np =>
      rw [show _route (n + 2) s m false =
          routeCore (fun a b => _route (n + 1) a b true)
            (addLog s LogLevel.debug routingText) m np false from by
        simp [_route, _get_next_phase, hl]]
      exact routeCore_safe_isSome _ s m np n (by simp) hs
    | none =>
      rw [show _route (n + 2) s m false =
          routeCore (fun a b => _route (n + 1) a b true)
            (addLog s LogLevel.error unknownPhaseText) m "cleanup" false from by
        simp [_route, _get_next_phase, hl]]
      exact routeCore_safe_isSome _ s m "cleanup" n (by simp) hs

/-- C4 (witness): the amended termination claim on a concrete router
whose cleanup handler succeeds. -/
theorem gordon_c4_witness : (_route 2 c10wS c1M false).isSome = true :=
  gordon_c4_amended c10wS c1M false 0
    (Or.inr ⟨noopHandler, rfl, fun mm => ⟨mm, [], rfl, rfl, by simp⟩⟩)

/-- C5: in-flight accounting.  Adding an already-tracked id starts no
second timer and leaves the table unchanged; adding a new id emits
exactly one timer start and appends the id; removing at a non-final
phase stops nothing and removes nothing; removing at a final phase with
the id tracked stops the timer exactly once and deletes the entry.  In
every case the `router-messages-in-flight` gauge is re-set to the
number of currently tracked ids. -/
theorem gordon_c5 (s : RouterState) (m : EventMessage) :
    (m.msg_id ∈ s.messages_in_flight →
      (_add_message_in_flight s m).messages_in_flight = s.messages_in_flight ∧
      (_add_message_in_flight s m).metrics =
        s.metrics ++ [MetricEvent.set inFlightName s.messages_in_flight.length]) ∧
    (m.msg_id ∉ s.messages_in_flight →
      (_add_message_in_flight s m).messages_in_flight =
        s.messages_in_flight ++ [m.msg_id] ∧
      (_add_message_in_flight s m).metrics =
        s.metrics ++ [MetricEvent.timerStart m.msg_id,
          MetricEvent.set inFlightName (s.messages_in_flight.length + 1)]) ∧
    (m.phase ∉ FINAL_PHASES →
      _remove_message_in_flight s m =
        (addMetric s (MetricEvent.set inFlightName s.messages_in_flight.length), none)) ∧
    (m.phase ∈ FINAL_PHASES → m.msg_id ∈ s.messages_in_flight →
      (_remove_message_in_flight s m).2 = none ∧
      (_remove_message_in_flight s m).1.messages_in_flight =
        s.messages_in_flight.erase m.msg_id ∧
      (_remove_message_in_flight s m).1.metrics =
        s.metrics ++ [MetricEvent.timerStop m.msg_id,
          MetricEvent.set inFlightName (s.messages_in_flight.erase m.msg_id).length]) := by
  refine ⟨?_, ?_, ?_, ?_⟩
  · intro hin
    simp [_add_message_in_flight, _update_messages_in_flight, hin]
  · intro hout
    simp [_add_message_in_flight, _update_messages_in_flight, hout]
  · intro hnf
    simp [_remove_message_in_flight, _update_messages_in_flight, hnf]
  · intro hf hin
    simp [_remove_message_in_flight, _update_messages_in_flight, hf, hin]

/-- C5 (witness): the in-flight operations on concrete tracked and
untracked ids. -/
theorem gordon_c5_witness :
    (_add_message_in_flight c5S c5M).messages_in_flight = c5S.messages_in_flight ∧
    (_add_message_in_flight c1S c1M).messages_in_flight =
      c1S.messages_in_flight ++ ["m-c1"] ∧
    _remove_message_in_flight c1S c1M =
      (addMetric c1S (MetricEvent.set inFlightName c1S.messages_in_flight.length), none) ∧
    (_remove_message_in_flight c5S c5M).2 = none :=
  ⟨((gordon_c5 c5S c5M).1 (by decide)).1,
   ((gordon_c5 c1S c1M).2.1 (by decide)).1,
   (gordon_c5 c1S c1M).2.2.1 (by decide),
   ((gordon_c5 c5S c5M).2.2.2 (by decide) (by decide)).1⟩

/-- The counter bookkeeping of one `routeCore` dispatch that ends the
message's lifecycle (no re-enqueue), under a safe terminal handler. -/
theorem routeCore_counters (s0 s : RouterState) (m : EventMessage) (np : String)
    (n : Nat)
    (hmap : s0.phase_plugin_map = s.phase_plugin_map)
    (hmet : s0.metrics = s.metrics)
    (hch0 : s0.success_channel = s.success_channel)
    (hs : CleanupSafe s)
    (s2 : RouterState) (m2 : EventMessage)
    (hr : routeCore (fun a b => _route (n + 1) a b true) s0 m np false = some (s2, m2))
    (hch : s2.success_channel = s.success_channel) :
    completedCount s2.metrics + droppedCount s2.metrics
      = completedCount s.metrics + droppedCount s.metrics + 1 ∨
    (plookup s.phase_plugin_map "cleanup" = none ∧
     completedCount s2.metrics = completedCount s.metrics ∧
     droppedCount s2.metrics = droppedCount s.metrics) := by
  cases hp : plookup s0.phase_plugin_map np with
  | none =>
    by_cases hf : np ∈ FINAL_PHASES
    · have hstep : routeCore (fun a b => _route (n + 1) a b true) s0 m np false =
          some (addLog (addMetric s0 (MetricEvent.incr updatePhaseName
            [("current", m.phase), ("next", np)])) LogLevel.debug dropFinalText,
            update_phase m np) := by
        simp [routeCore, hp, hf]
      rw [hstep] at hr
      cases hr
      right
      have hnp := (mem_final_iff np).1 hf
      subst hnp
      rw [hmap] at hp
      refine ⟨hp, ?_, ?_⟩
      · simp [hmet]
      · simp [droppedCount, hmet]
    · have hstep : routeCore (fun a b => _route (n + 1) a b true) s0 m np false =
          _route (n + 1)
            (addMetric (addLog (addMetric s0 (MetricEvent.incr updatePhaseName
                [("current", m.phase), ("next", np)])) LogLevel.warning excLogText)
              (MetricEvent.incr droppedName [("error", "AttributeError")]))
            (append_to_history (update_phase m np) excHistoryText np) true := by
        simp [routeCore, hp, hf]
      rw [hstep] at hr
      obtain ⟨-, -, hd, hc, -, -⟩ :=
        (route_forced_safe _ _ n (cleanupSafe_congr _ s (by simp [hmap]) hs)).2 s2 m2 hr
      left
      simp only [addMetric_metrics, addLog_metrics, hmet] at hd hc
      have hd2 : droppedCount s2.metrics = droppedCount s.metrics + 1 := by
        rw [droppedCount, hd]
        simp [droppedCount]
      have hc2 : completedCount s2.metrics = completedCount s.metrics := by
        rw [hc]
        simp
      omega
  | some h =>
    by_cases hf : np ∈ FINAL_PHASES
    · have hnp := (mem_final_iff np).1 hf
      subst hnp
      rw [hmap] at hp
      rcases hs with hnone | ⟨h2, hp2, hw⟩
      · rw [hnone] at hp
        cases hp
      · rw [hp2] at hp
        have hh := Option.some.inj hp
        subst hh
        obtain ⟨mm2, ext, hok, hph2, hh2⟩ := hw (update_phase m "cleanup")
        have hstep : routeCore (fun a b => _route (n + 1) a b true) s0 m "cleanup" false =
            some (addMetric (addCall (addMetric s0 (MetricEvent.incr updatePhaseName
                [("current", m.phase), ("next", "cleanup")])) "cleanup" m.msg_id)
              (MetricEvent.incr completedName []), mm2) := by
          simp [routeCore, hmap, hp2, hok, hf]
        rw [hstep] at hr
        cases hr
        left
        simp [droppedCount, hmet]
        omega
    · cases hx : h (update_phase m np) with
      | ok mm2 =>
        have hstep : routeCore (fun a b => _route (n + 1) a b true) s0 m np false =
            some (putMsg (addCall (addMetric s0 (MetricEvent.incr updatePhaseName
                [("current", m.phase), ("next", np)])) np m.msg_id)
              (ChannelItem.msg (append_to_history mm2 successHistoryText mm2.phase)),
              append_to_history mm2 successHistoryText mm2.phase) := by
          simp [routeCore, hp, hf, hx]
        rw [hstep] at hr
        cases hr
        exfalso
        simp only [putMsg_channel, addCall_channel, addMetric_channel, hch0] at hch
        have hlen := congrArg List.length hch
        simp at hlen
      | exc e =>
        have hstep : routeCore (fun a b => _route (n + 1) a b true) s0 m np false =
            _route (n + 1)
              (addMetric (addLog (addCall (addMetric s0 (MetricEvent.incr updatePhaseName
                  [("current", m.phase), ("next", np)])) np m.msg_id)
                  LogLevel.warning excLogText)
                (MetricEvent.incr droppedName [("error", e)]))
              (append_to_history (update_phase m np) excHistoryText np) true := by
          simp [routeCore, hp, hf, hx]
        rw [hstep] at hr
        obtain ⟨-, -, hd, hc, -, -⟩ :=
          (route_forced_safe _ _ n (cleanupSafe_congr _ s (by simp [hmap]) hs)).2 s2 m2 hr
        left
        simp only [addMetric_metrics, addLog_metrics, addCall_metrics, hmet] at hd hc
        have hd2 : droppedCount s2.metrics = droppedCount s.metrics + 1 := by
          rw [droppedCount, hd]
          simp [droppedCount]
        have hc2 : completedCount s2.metrics = completedCount s.metrics := by
          rw [hc]
          simp
        omega

/-- C6 (counterexample): a message arriving naturally at the terminal
phase whose cleanup handler raises on its first two invocations gets the
`router-message-dropped` counter emitted twice and `router-message-
completed` never — not "exactly one of the two", although a cleanup
plugin is registered. -/
theorem gordon_c6_counterexample :
    droppedTags c6x.1.metrics = ["CleanupBoom", "CleanupBoom"] ∧
    completedCount c6x.1.metrics = 0 ∧
    c6x.1.success_channel = c6xS.success_channel := by decide

/-- C6 (amended): for every `_route` dispatch that ends a message's
lifecycle (no re-enqueue onto the success channel), provided the
terminal cleanup handler (when registered) is well behaved, exactly one
of `router-message-completed` or `router-message-dropped` is emitted —
unless no plugin is registered for the terminal phase, in which case
neither is. -/
theorem gordon_c6_amended (s : RouterState) (m : EventMessage) (n : Nat)
    (s2 : RouterState) (m2 : EventMessage)
    (hs : CleanupSafe s)
    (hr : _route (n + 2) s m false = some (s2, m2))
    (hch : s2.success_channel = s.success_channel) :
    completedCount s2.metrics + droppedCount s2.metrics
      = completedCount s.metrics + droppedCount s.metrics + 1 ∨
    (plookup s.phase_plugin_map "cleanup" = none ∧
     completedCount s2.metrics = completedCount s.metrics ∧
     droppedCount s2.metrics = droppedCount s.metrics) := by
  cases hl : plookup s.phase_route m.phase with
  | some np =>
    rw [show _route (n + 2) s m false =
        routeCore (fun a b => _route (n + 1) a b true)
          (addLog s LogLevel.debug routingText) m np false from by
      simp [_route, _get_next_phase, hl]] at hr
    exact routeCore_counters _ s m np n (by simp) (by simp) (by simp) hs s2 m2 hr hch
  | none =>
    rw [show _route (n + 2) s m false =
        routeCore (fun a b => _route (n + 1) a b true)
          (addLog s LogLevel.error unknownPhaseText) m "cleanup" false from by
      simp [_route, _get_next_phase, hl]] at hr
    exact routeCore_counters _ s m "cleanup" n (by simp) (by simp) (by simp) hs s2 m2 hr hch

/-- C6 (witness): the natural, succeeding terminal arrival on the
concrete all-succeeding router emits exactly one counter. -/
theorem gordon_c6_witness :
    completedCount c6w.1.metrics + droppedCount c6w.1.metrics
      = completedCount c1S.metrics + droppedCount c1S.metrics + 1 ∨
    (plookup c1S.phase_plugin_map "cleanup" = none ∧
     completedCount c6w.1.metrics = completedCount c1S.metrics ∧
     droppedCount c6w.1.metrics = droppedCount c1S.metrics) :=
  gordon_c6_amended c1S c6xM 0 c6w.1 c6w.2
    (Or.inr ⟨noopHandler, rfl, fun mm => ⟨mm, [], rfl, rfl, by simp⟩⟩) rfl rfl

/-- C7 (code bug): after the shutdown sentinel is dequeued and the
shutdown message logged, the `run` scheduling loop keeps polling and the
next poll dispatches the message enqueued after the sentinel — the
router does not stop processing as the spec and the code's own log line
("shutting down router") state. -/
theorem gordon_c7_bug :
    (runPolls 9 3 c7S).1.calls = [("cleanup", "m-1"), ("cleanup", "m-2")] ∧
    (LogLevel.info, termText) ∈ (runPolls 9 3 c7S).1.logs ∧
    (runPolls 9 3 c7S).2 = [] := by decide

/-- C8: with no plugin registered for the terminal phase, construction
logs the warning, and at runtime every dispatch whose next phase is the
terminal phase returns normally having only updated the message's phase:
no handler invocation, no channel put, no dropped or completed counter. -/
theorem gordon_c8 (pr : List (String × String)) (sc ec : List ChannelItem)
    (plugins : List (String × Handler)) (s : RouterState) (m : EventMessage)
    (n : Nat) (fc : Bool)
    (hplug : plookup (buildPhaseMap plugins) "cleanup" = none)
    (hmap : s.phase_plugin_map = buildPhaseMap plugins)
    (hnext : computedNextPhase s m fc = "cleanup") :
    (mkRouter pr sc ec plugins).logs = [(LogLevel.warning, noFinalWarnText)] ∧
    (_route (n + 1) s m fc).map
        (fun r => (r.2, r.1.calls, r.1.success_channel, droppedTags r.1.metrics,
          completedCount r.1.metrics)) =
      some (update_phase m "cleanup", s.calls, s.success_channel,
        droppedTags s.metrics, completedCount s.metrics) := by
  have hp : plookup s.phase_plugin_map "cleanup" = none := by
    rw [hmap]
    exact hplug
  constructor
  · simp [mkRouter, FINAL_PHASES, hplug]
  · cases fc with
    | true => simp [_route, routeCore, hp, FINAL_PHASES]
    | false =>
      simp only [computedNextPhase, if_neg] at hnext
      cases hl : plookup s.phase_route m.phase with
      | some np =>
        have hnp : np = "cleanup" := by simpa [_get_next_phase, hl] using hnext
        subst hnp
        simp [_route, routeCore, _get_next_phase, hl, hp, FINAL_PHASES]
      | none =>
        simp [_route, routeCore, _get_next_phase, hl, hp, FINAL_PHASES]

/-- C8 (witness): the missing-terminal-plugin behaviour on a concrete
router with only enrich and publish plugins. -/
theorem gordon_c8_witness :
    (mkRouter stdRoute [] [] c8plugins).logs = [(LogLevel.warning, noFinalWarnText)] :=
  (gordon_c8 stdRoute [] [] c8plugins c8wS c8wM 0 false rfl rfl rfl).1

/-- C9 (counterexample): polling a dequeued object that neither provides
`IEventMessage` nor has a `msg_id` attribute raises `AttributeError` out
of the poll coroutine while formatting the log line, before the
`invalid-message-provider` metric is emitted — the claim's "for
arbitrary invalid objects, including ones lacking the expected
attributes" fails. -/
theorem gordon_c9_counterexample :
    (_poll_channel 5 c9xS).2 = some "AttributeError" ∧
    droppedTags (_poll_channel 5 c9xS).1.metrics = [] ∧
    (_poll_channel 5 c9xS).1.logs = c9xS.logs := by decide

/-- C9 (amended): for every dequeued object that does not provide
`IEventMessage` but does expose a `msg_id` attribute, the router logs a
warning, emits the `router-message-dropped` metric tagged
`invalid-message-provider`, and discards the object — the state is
otherwise untouched (no phase logic, no handler call) and no exception
escapes the poll. -/
theorem gordon_c9_amended (s : RouterState) (rest : List ChannelItem) (mid : String)
    (fuel : Nat)
    (hch : s.success_channel = ChannelItem.invalid true mid :: rest) :
    _poll_channel fuel s =
      (addMetric (addLog { s with success_channel := rest }
          LogLevel.warning invalidMsgText)
        (MetricEvent.incr droppedName [("error", "invalid-message-provider")]),
       none) := by
  simp [_poll_channel, hch, _verify_message_impl]

/-- C9 (witness): the amended claim on a concrete invalid object that
exposes a `msg_id`. -/
theorem gordon_c9_witness :
    _poll_channel 5 c9wS =
      (addMetric (addLog { c9wS with success_channel := [] }
          LogLevel.warning invalidMsgText)
        (MetricEvent.incr droppedName [("error", "invalid-message-provider")]),
       none) :=
  gordon_c9_amended c9wS [] "x" 5 rfl

/-- C10: a dispatch to a non-terminal phase with no registered plugin
does not crash the router and does not silently drop the message: the
`AttributeError` from `None.handle_message` is caught by the universal
handler-failure path, the message is force-routed to the terminal
cleanup phase with the exception documented in its history, and the
dropped counter is emitted tagged `AttributeError` (stated under a
well-behaved terminal handler so the forced dispatch terminates). -/
theorem gordon_c10 (s : RouterState) (m : EventMessage) (p : String) (n : Nat)
    (hl : plookup s.phase_route m.phase = some p)
    (hnf : p ∉ FINAL_PHASES)
    (hp : plookup s.phase_plugin_map p = none)
    (hs : CleanupSafe s) :
    (_route (n + 2) s m false).isSome = true ∧
    ∀ s2 m2, _route (n + 2) s m false = some (s2, m2) →
      m2.phase = "cleanup" ∧
      (excHistoryText, p) ∈ m2.history ∧
      droppedTags s2.metrics = droppedTags s.metrics ++ ["AttributeError"] ∧
      completedCount s2.metrics = completedCount s.metrics := by
  rw [route_missing_plugin_step (n + 1) s m p hl hp hnf]
  have hsB : CleanupSafe (addMetric (addLog (addMetric
      (addLog s LogLevel.debug routingText)
      (MetricEvent.incr updatePhaseName [("current", m.phase), ("next", p)]))
      LogLevel.warning excLogText)
      (MetricEvent.incr droppedName [("error", "AttributeError")])) :=
    cleanupSafe_congr _ s (by simp) hs
  obtain ⟨h1, h2⟩ := route_forced_safe _ _ n hsB
  refine ⟨h1, ?_⟩
  intro s2 m2 hr
  obtain ⟨hph, ⟨ext, hh⟩, hd, hc, -, -⟩ := h2 s2 m2 hr
  refine ⟨hph, ?_, ?_, ?_⟩
  · rw [hh]
    simp
  · rw [hd]
    simp
  · rw [hc]
    simp

/-- C10 (witness): the missing enrich plugin on a concrete router whose
cleanup handler succeeds. -/
theorem gordon_c10_witness : (_route 5 c10wS c1M false).isSome = true :=
  (gordon_c10 c10wS c1M "enrich" 3 rfl (by decide) rfl
    (Or.inr ⟨noopHandler, rfl, fun mm => ⟨mm, [], rfl, rfl, by simp⟩⟩)).1

end Gordon
